import Mathlib

/-!
Verification development for the `hdmi-dev-video-player` program
(`src/main.c`).  The program decodes video frames into two alternating
framebuffers and presents them to an HDMI peripheral at a sub-multiple
`FDIV` of the hardware refresh rate, pacing itself purely from the
peripheral's reported scan coordinate.

We shallowly embed `main.c`:
* the hardware coordinate `(fid, row)` is a structure of naturals;
* the coordinate source is a stream `coords : Nat → hdmi_coordinate_t`,
  each call to `hdmi_dev_coordinate()` consuming the next index;
* the decoder is a stream `decode : Nat → Int` of return codes, one per
  `video_get_frame` call;
* the externally-declared `hdmi_fid_delta` (whose definition lives
  outside this repository) is a parameter `fidDelta : Nat → Nat → Int`
  of the loop model, with a spec-modelled concrete instance used for
  concrete evaluations;
* the two busy-wait `while` loops get a fuel argument, returning `none`
  when the fuel runs out (the real loop would still be spinning);
* observable side effects (decode, log lines, flush, set_fb, start) are
  recorded as an event trace.
-/

/-- Scan coordinate reported by the peripheral: hardware frame id
(wrapping counter) and scanline row, both unsigned. -/
structure hdmi_coordinate_t where
  fid : Nat
  row : Nat
deriving DecidableEq, Repr

/-- Modelled from the spec: the source of `hdmi_fid_delta` (declared in
`hdmi_dev.h`, not part of this repository) is missing from `src/`.  The
spec describes it as the minimal-magnitude signed distance between two
wrapping frame ids, `a` having occurred `delta` frames after `b`, for an
implementation-defined modulus `M` (spec example: modulus 1000 gives
`delta 5 998 = 7`).  Used only to instantiate the abstract `fidDelta`
parameter on concrete runs. -/
def hdmi_fid_delta (M : Nat) (a b : Nat) : Int :=
  let d := ((a % M) + M - (b % M)) % M
  if 2 * d < M then (d : Int) else (d : Int) - (M : Int)

/-- FFmpeg's end-of-stream return code (`video.h` wraps FFmpeg).  Only
its being distinct from 0 matters to `main.c`. -/
def AVERROR_EOF : Int := -541478725

/-- POSIX signal number for `SIGINT` on the target platform. -/
def SIGINT : Int := 2

/-- POSIX signal number for `SIGTERM` on the target platform. -/
def SIGTERM : Int := 15

/-- The two stop commands the peripheral driver offers:
`hdmi_dev_stop` (graceful, waits for acknowledgement) and
`hdmi_dev_stopnow` (immediate). -/
inductive StopCmd where
  | stop
  | stopnow
deriving DecidableEq, Repr

/-- `signal_handler` (src/main.c lines 37-43): on `SIGINT` issue the
acknowledged stop, otherwise the immediate stop, then `_exit(2)`.
Modelled as the list of peripheral commands issued followed by the exit
status passed to `_exit`. -/
def signal_handler (signum : Int) : List StopCmd × Int :=
  (if signum = SIGINT then [StopCmd.stop] else [StopCmd.stopnow], 2)

/-- Observable actions of the playback loop. -/
inductive Event where
  | decodeFrame (slot : Nat) (res : Int)
  | decodeError (res : Int)
  | flush (slot : Nat)
  | warnMissedDeadline
  | setFb (slot : Nat)
  | devStart
deriving DecidableEq, Repr

/-- One busy-wait `while (fid_delta < thresh) { cur = hdmi_dev_coordinate();
fid_delta = hdmi_fid_delta(cur.fid, last.fid); }` loop, with `delta`
being `hdmi_fid_delta` already applied to the fixed reference `last.fid`.
`j` is the index of the most recently read coordinate sample; the loop
re-reads while the current sample is below `thresh`.  Returns the index
of the first accepted sample, or `none` when the fuel runs out. -/
def pollUntil (delta : Nat → Int) (thresh : Int)
    (coords : Nat → hdmi_coordinate_t) (j : Nat) : Nat → Option Nat
  | 0 => if thresh ≤ delta (coords j).fid then some j else none
  | fuel + 1 =>
    if thresh ≤ delta (coords j).fid then some j
    else pollUntil delta thresh coords (j + 1) fuel

/-- Result of one steady-state iteration body (src/main.c lines 136-175):
whether the missed-deadline warning fired, the index of the coordinate
sample current when `hdmi_dev_set_fb` was issued, and the index of the
sample recorded as the new `last`. -/
structure SteadyResult where
  warned : Bool
  setFbIdx : Nat
  presentIdx : Nat
deriving DecidableEq, Repr

/-- Steady-state section of the loop body (src/main.c lines 136-175):
read a coordinate, compute `fid_delta`, emit the deadline diagnostic,
busy-wait until `fid_delta >= FDIV - 1`, hand over the framebuffer,
busy-wait until `fid_delta >= FDIV`, and record the coordinate current
at that point.  `i` is the index of the coordinate read at line 147. -/
def steadyIter (fidDelta : Nat → Nat → Int) (FDIV : Int)
    (last : hdmi_coordinate_t) (coords : Nat → hdmi_coordinate_t)
    (i : Nat) (fuel : Nat) : Option SteadyResult :=
  let delta := fun fid => fidDelta fid last.fid
  let d := delta (coords i).fid
  let warned := decide (FDIV ≤ d) || (decide (d = FDIV - 1) && decide (524 ≤ (coords i).row))
  match pollUntil delta (FDIV - 1) coords i fuel with
  | none => none
  | some j1 =>
    match pollUntil delta FDIV coords j1 fuel with
    | none => none
    | some j2 => some ⟨warned, j1, j2⟩

/-- The schedule of the steady-state section with the deadline
diagnostic (src/main.c lines 153-156) deleted: only the two waits and
the handover point.  Used to state that the warning never alters
scheduling. -/
def steadySchedule (fidDelta : Nat → Nat → Int) (FDIV : Int)
    (last : hdmi_coordinate_t) (coords : Nat → hdmi_coordinate_t)
    (i : Nat) (fuel : Nat) : Option (Nat × Nat) :=
  let delta := fun fid => fidDelta fid last.fid
  match pollUntil delta (FDIV - 1) coords i fuel with
  | none => none
  | some j1 =>
    match pollUntil delta FDIV coords j1 fuel with
    | none => none
    | some j2 => some (j1, j2)

/-- Mutable state of `main`'s playback loop (src/main.c lines 111-113)
plus the consumption counters for the two external streams: `ci` is the
index of the next coordinate sample to read, `di` the index of the next
`video_get_frame` call. -/
structure LoopState where
  fb : Nat
  last : hdmi_coordinate_t
  first : Bool
  ci : Nat
  di : Nat
deriving DecidableEq, Repr

/-- State of the loop variables on entry (src/main.c lines 111-113):
`fb = 0`, `first = true`; `last` is declared but uninitialized, so its
value here is irrelevant junk (the first iteration assigns it before
any use). -/
def initState : LoopState := ⟨0, ⟨0, 0⟩, true, 0, 0⟩

/-- Outcome of one pass through the `while (true)` body. -/
inductive IterOut where
  | next (evs : List Event) (s : LoopState)
  | eofExit (evs : List Event)
  | stuck (evs : List Event)
deriving DecidableEq, Repr

/-- One pass of `main`'s playback loop body (src/main.c lines 114-180):
decode into `fbs[fb]` (exit the loop on `AVERROR_EOF`, log other nonzero
codes), flush the buffer, then either the bootstrap branch (present
immediately, start the device, record the coordinate) or the
steady-state branch, and finally flip the slot and clear `first`. -/
def loopBody (fidDelta : Nat → Nat → Int) (FDIV : Int)
    (coords : Nat → hdmi_coordinate_t) (decode : Nat → Int)
    (pollFuel : Nat) (s : LoopState) : IterOut :=
  let res := decode s.di
  if res = AVERROR_EOF then
    IterOut.eofExit [Event.decodeFrame s.fb res]
  else
    let evs0 := [Event.decodeFrame s.fb res]
      ++ (if res ≠ 0 then [Event.decodeError res] else [])
      ++ [Event.flush s.fb]
    if s.first then
      IterOut.next (evs0 ++ [Event.setFb s.fb, Event.devStart])
        ⟨(s.fb + 1) % 2, coords s.ci, false, s.ci + 1, s.di + 1⟩
    else
      match steadyIter fidDelta FDIV s.last coords s.ci pollFuel with
      | none => IterOut.stuck evs0
      | some r =>
        IterOut.next
          (evs0 ++ (if r.warned then [Event.warnMissedDeadline] else [])
            ++ [Event.setFb s.fb])
          ⟨(s.fb + 1) % 2, coords r.presentIdx, false, r.presentIdx + 1, s.di + 1⟩

/-- Outcome of running the playback loop for a bounded number of
iterations: still looping at some state, exited via end-of-stream, or a
busy-wait spun past its fuel. -/
inductive LoopOutcome where
  | running (s : LoopState)
  | eofExit
  | stuck
deriving DecidableEq, Repr

/-- Run `main`'s playback loop for at most `iters` iterations from
state `s`, accumulating the event trace. -/
def runLoop (fidDelta : Nat → Nat → Int) (FDIV : Int)
    (coords : Nat → hdmi_coordinate_t) (decode : Nat → Int)
    (pollFuel : Nat) (s : LoopState) : Nat → List Event × LoopOutcome
  | 0 => ([], LoopOutcome.running s)
  | iters + 1 =>
    match loopBody fidDelta FDIV coords decode pollFuel s with
    | IterOut.eofExit evs => (evs, LoopOutcome.eofExit)
    | IterOut.stuck evs => (evs, LoopOutcome.stuck)
    | IterOut.next evs s1 =>
      let rest := runLoop fidDelta FDIV coords decode pollFuel s1 iters
      (evs ++ rest.1, rest.2)

/-- Environment of `main`'s setup phase (src/main.c lines 45-106): the
argument vector past `argv[0]`, the effective uid, libc's `atoi`, and
the success/failure of each external setup call, in program order. -/
structure SetupEnv where
  args : List String
  euid : Nat
  atoi : String → Int
  videoOk : Bool
  allocOk : Bool
  fb0Ok : Bool
  fb1Ok : Bool
  sigintRes : Int
  sigtermRes : Int
  devOk : Bool

/-- Result of the setup phase: `exit` with a status before the loop, or
proceed into playback with the parsed divider. -/
inductive SetupResult where
  | exitWith (status : Nat)
  | proceed (FDIV : Int)
deriving DecidableEq, Repr

/-- Setup phase of `main` (src/main.c lines 45-106), in source order:
`help`/`--help` with exactly one argument, a wrong argument count, a
non-root uid, a non-positive parsed divider, or a failed `video_open`
print usage and exit 1; a failed allocator open, either failed
framebuffer allocation, a failed `sigaction`, or a failed
`hdmi_dev_open` exit 127; otherwise playback begins. -/
def main_setup (env : SetupEnv) : SetupResult :=
  let argc := env.args.length + 1
  if argc = 2 ∧ env.args.getD 0 "" = "help" then SetupResult.exitWith 1
  else if argc = 2 ∧ env.args.getD 0 "" = "--help" then SetupResult.exitWith 1
  else if argc ≠ 3 then SetupResult.exitWith 1
  else if env.euid ≠ 0 then SetupResult.exitWith 1
  else
    let FDIV := env.atoi (env.args.getD 1 "")
    if FDIV ≤ 0 then SetupResult.exitWith 1
    else if !env.videoOk then SetupResult.exitWith 1
    else if !env.allocOk then SetupResult.exitWith 127
    else if !env.fb0Ok then SetupResult.exitWith 127
    else if !env.fb1Ok then SetupResult.exitWith 127
    else if env.sigintRes ≠ 0 ∨ env.sigtermRes ≠ 0 then SetupResult.exitWith 127
    else if !env.devOk then SetupResult.exitWith 127
    else SetupResult.proceed FDIV

/-- Exit status of a whole invocation of the program, when it
terminates within the given iteration budget: a setup failure's status,
or 0 after the loop exits on end-of-stream and teardown runs
(src/main.c lines 182-191). -/
def program_status (env : SetupEnv) (fidDelta : Nat → Nat → Int)
    (coords : Nat → hdmi_coordinate_t) (decode : Nat → Int)
    (pollFuel iters : Nat) : Option Nat :=
  match main_setup env with
  | SetupResult.exitWith c => some c
  | SetupResult.proceed FDIV =>
    match (runLoop fidDelta FDIV coords decode pollFuel initState iters).2 with
    | LoopOutcome.eofExit => some 0
    | _ => none

/-! ### Helper lemmas -/

/-- Full specification of one busy-wait: when `pollUntil` accepts sample
`j2`, the accepted sample is at or past the threshold, it is not earlier
than the starting sample, and every sample checked before it was below
the threshold. -/
lemma pollUntil_spec {delta : Nat → Int} {thresh : Int}
    {coords : Nat → hdmi_coordinate_t} :
    ∀ {fuel j j2}, pollUntil delta thresh coords j fuel = some j2 →
      j ≤ j2 ∧ thresh ≤ delta (coords j2).fid
        ∧ ∀ k, j ≤ k → k < j2 → delta (coords k).fid < thresh := by
  intro fuel
  induction fuel with
  | zero =>
    intro j j2 h
    unfold pollUntil at h
    split at h
    · cases h
      exact ⟨Nat.le_refl _, by assumption, fun k hk1 hk2 => absurd hk1 (by omega)⟩
    · cases h
  | succ f ih =>
    intro j j2 h
    unfold pollUntil at h
    split at h
    · cases h
      exact ⟨Nat.le_refl _, by assumption, fun k hk1 hk2 => absurd hk1 (by omega)⟩
    · rename_i hlt
      obtain ⟨h1, h2, h3⟩ := ih h
      refine ⟨by omega, h2, fun k hk1 hk2 => ?_⟩
      rcases Nat.eq_or_lt_of_le hk1 with heq | hgt
      · subst heq; exact Int.lt_of_not_ge hlt
      · exact h3 k hgt hk2

/-- Inversion of a successful steady-state iteration into its two waits
and the deadline flag. -/
lemma steadyIter_some {fidDelta : Nat → Nat → Int} {FDIV : Int}
    {last : hdmi_coordinate_t} {coords : Nat → hdmi_coordinate_t}
    {i fuel : Nat} {r : SteadyResult}
    (h : steadyIter fidDelta FDIV last coords i fuel = some r) :
    pollUntil (fun fid => fidDelta fid last.fid) (FDIV - 1) coords i fuel
        = some r.setFbIdx
    ∧ pollUntil (fun fid => fidDelta fid last.fid) FDIV coords r.setFbIdx fuel
        = some r.presentIdx
    ∧ r.warned = (decide (FDIV ≤ fidDelta (coords i).fid last.fid)
        || (decide (fidDelta (coords i).fid last.fid = FDIV - 1)
            && decide (524 ≤ (coords i).row))) := by
  simp only [steadyIter] at h
  cases h1 : pollUntil (fun fid => fidDelta fid last.fid) (FDIV - 1) coords i fuel with
  | none => rw [h1] at h; cases h
  | some j1 =>
    rw [h1] at h
    dsimp only at h
    cases h2 : pollUntil (fun fid => fidDelta fid last.fid) FDIV coords j1 fuel with
    | none => rw [h2] at h; cases h
    | some j2 =>
      rw [h2] at h
      dsimp only at h
      rw [Option.some.injEq] at h
      subst h
      exact ⟨rfl, h2, rfl⟩

/-- A completed steady-state pass of the loop body, written out: the
decode/flush events, the optional warning, the handover of the current
slot, and the successor state built from the sample recorded at the end
of the second wait. -/
lemma loopBody_steady {fidDelta : Nat → Nat → Int} {FDIV : Int}
    {coords : Nat → hdmi_coordinate_t} {decode : Nat → Int}
    {pollFuel : Nat} {s : LoopState} {r : SteadyResult}
    (hfirst : s.first = false) (hres : decode s.di ≠ AVERROR_EOF)
    (hiter : steadyIter fidDelta FDIV s.last coords s.ci pollFuel = some r) :
    loopBody fidDelta FDIV coords decode pollFuel s
      = IterOut.next
          ([Event.decodeFrame s.fb (decode s.di)]
            ++ (if decode s.di ≠ 0 then [Event.decodeError (decode s.di)] else [])
            ++ [Event.flush s.fb]
            ++ (if r.warned then [Event.warnMissedDeadline] else [])
            ++ [Event.setFb s.fb])
          ⟨(s.fb + 1) % 2, coords r.presentIdx, false, r.presentIdx + 1, s.di + 1⟩ := by
  simp only [loopBody, hfirst, hres, hiter, if_neg, if_false, Bool.false_eq_true,
    ite_false, List.append_assoc]

/-- Inversion: with the bootstrap flag clear, a `next` outcome of the
loop body comes from a successful steady-state iteration. -/
lemma loopBody_next_inv {fidDelta : Nat → Nat → Int} {FDIV : Int}
    {coords : Nat → hdmi_coordinate_t} {decode : Nat → Int}
    {pollFuel : Nat} {s : LoopState} {evs : List Event} {s1 : LoopState}
    (hfirst : s.first = false)
    (hnext : loopBody fidDelta FDIV coords decode pollFuel s = IterOut.next evs s1) :
    decode s.di ≠ AVERROR_EOF
    ∧ ∃ r, steadyIter fidDelta FDIV s.last coords s.ci pollFuel = some r
      ∧ evs = ([Event.decodeFrame s.fb (decode s.di)]
            ++ (if decode s.di ≠ 0 then [Event.decodeError (decode s.di)] else [])
            ++ [Event.flush s.fb]
            ++ (if r.warned then [Event.warnMissedDeadline] else [])
            ++ [Event.setFb s.fb])
      ∧ s1 = ⟨(s.fb + 1) % 2, coords r.presentIdx, false, r.presentIdx + 1, s.di + 1⟩ := by
  by_cases hres : decode s.di = AVERROR_EOF
  · simp only [loopBody, hres, if_pos, ite_true] at hnext
    simp at hnext
  · refine ⟨hres, ?_⟩
    cases hiter : steadyIter fidDelta FDIV s.last coords s.ci pollFuel with
    | none =>
      simp only [loopBody, hres, hfirst, hiter] at hnext
      simp at hnext
    | some r =>
      have hbody := loopBody_steady hfirst hres hiter
      rw [hbody] at hnext
      injection hnext with he hs
      subst he
      subst hs
      exact ⟨r, rfl, rfl, rfl⟩

/-! ### Claim theorems -/

/-- C1: in every steady-state iteration the scheduler busy-polls until
`fid_delta >= FDIV - 1` before issuing `set_fb` (every sample checked
earlier was strictly below `FDIV - 1`), busy-polls again until
`fid_delta >= FDIV` before returning to decoding (every sample checked
in between was strictly below `FDIV`), and the coordinate observed at
that point becomes the new `last_presented_coordinate` of the successor
state. -/
theorem steady_state_wait_windows (fidDelta : Nat → Nat → Int) (FDIV : Int)
    (coords : Nat → hdmi_coordinate_t) (decode : Nat → Int)
    (pollFuel : Nat) (s : LoopState) (r : SteadyResult)
    (hfirst : s.first = false)
    (hiter : steadyIter fidDelta FDIV s.last coords s.ci pollFuel = some r) :
    s.ci ≤ r.setFbIdx ∧ r.setFbIdx ≤ r.presentIdx
    ∧ FDIV - 1 ≤ fidDelta (coords r.setFbIdx).fid s.last.fid
    ∧ (∀ k, s.ci ≤ k → k < r.setFbIdx → fidDelta (coords k).fid s.last.fid < FDIV - 1)
    ∧ FDIV ≤ fidDelta (coords r.presentIdx).fid s.last.fid
    ∧ (∀ k, r.setFbIdx ≤ k → k < r.presentIdx → fidDelta (coords k).fid s.last.fid < FDIV)
    ∧ (∀ evs s1, loopBody fidDelta FDIV coords decode pollFuel s = IterOut.next evs s1 →
        s1.last = coords r.presentIdx ∧ s1.ci = r.presentIdx + 1) := by
  obtain ⟨hp1, hp2, -⟩ := steadyIter_some hiter
  obtain ⟨h1le, h1acc, h1rej⟩ := pollUntil_spec hp1
  obtain ⟨h2le, h2acc, h2rej⟩ := pollUntil_spec hp2
  refine ⟨h1le, h2le, h1acc, h1rej, h2acc, h2rej, ?_⟩
  intro evs s1 hnext
  obtain ⟨-, r1, hiter1, -, hs1⟩ := loopBody_next_inv hfirst hnext
  rw [hiter] at hiter1
  rw [Option.some.injEq] at hiter1
  subst hiter1
  rw [hs1]
  exact ⟨rfl, rfl⟩

/-- C10: whenever a steady-state pass of the loop body produces a
successor state, the newly recorded `last_presented_coordinate` is at
least `FDIV` refreshes after the previously recorded one, as measured
by `hdmi_fid_delta` — the presented frame rate never exceeds refresh
rate over `FDIV`, missed deadlines included. -/
theorem presented_frames_fdiv_apart (fidDelta : Nat → Nat → Int) (FDIV : Int)
    (coords : Nat → hdmi_coordinate_t) (decode : Nat → Int)
    (pollFuel : Nat) (s : LoopState) (evs : List Event) (s1 : LoopState)
    (hfirst : s.first = false)
    (hnext : loopBody fidDelta FDIV coords decode pollFuel s = IterOut.next evs s1) :
    FDIV ≤ fidDelta s1.last.fid s.last.fid := by
  obtain ⟨-, r, hiter, -, hs1⟩ := loopBody_next_inv hfirst hnext
  obtain ⟨-, hp2, -⟩ := steadyIter_some hiter
  obtain ⟨-, h2acc, -⟩ := pollUntil_spec hp2
  rw [hs1]
  exact h2acc

/-- C2: in a completed steady-state pass, the missed-deadline warning
is emitted exactly when, at the coordinate sampled after decoding and
flushing, `fid_delta >= FDIV` or `fid_delta = FDIV - 1` with the row at
or past 524; and the warning never alters scheduling: the two wait
results of `steadyIter` coincide with those of `steadySchedule`, the
same code with the diagnostic deleted. -/
theorem missed_deadline_diagnostic (fidDelta : Nat → Nat → Int) (FDIV : Int)
    (coords : Nat → hdmi_coordinate_t) (decode : Nat → Int)
    (pollFuel : Nat) (s : LoopState) (evs : List Event) (s1 : LoopState)
    (hfirst : s.first = false)
    (hnext : loopBody fidDelta FDIV coords decode pollFuel s = IterOut.next evs s1) :
    (Event.warnMissedDeadline ∈ evs ↔
      (FDIV ≤ fidDelta (coords s.ci).fid s.last.fid
        ∨ (fidDelta (coords s.ci).fid s.last.fid = FDIV - 1 ∧ 524 ≤ (coords s.ci).row)))
    ∧ Option.map (fun r => (r.setFbIdx, r.presentIdx))
        (steadyIter fidDelta FDIV s.last coords s.ci pollFuel)
      = steadySchedule fidDelta FDIV s.last coords s.ci pollFuel := by
  constructor
  · obtain ⟨-, r, hiter, hevs, -⟩ := loopBody_next_inv hfirst hnext
    obtain ⟨-, -, hw⟩ := steadyIter_some hiter
    subst hevs
    have hmem : Event.warnMissedDeadline
        ∈ ([Event.decodeFrame s.fb (decode s.di)]
            ++ (if decode s.di ≠ 0 then [Event.decodeError (decode s.di)] else [])
            ++ [Event.flush s.fb]
            ++ (if r.warned then [Event.warnMissedDeadline] else [])
            ++ [Event.setFb s.fb])
        ↔ r.warned = true := by
      by_cases hwr : r.warned = true <;> by_cases hz : decode s.di = 0 <;>
        simp [hwr, hz]
    rw [hmem, hw]
    simp only [Bool.or_eq_true, Bool.and_eq_true, decide_eq_true_eq]
  · cases h1 : pollUntil (fun fid => fidDelta fid s.last.fid) (FDIV - 1) coords s.ci pollFuel with
    | none => simp [steadyIter, steadySchedule, h1]
    | some j1 =>
      cases h2 : pollUntil (fun fid => fidDelta fid s.last.fid) FDIV coords j1 pollFuel with
      | none => simp [steadyIter, steadySchedule, h1, h2]
      | some j2 => simp [steadyIter, steadySchedule, h1, h2]

/-- Hitting `AVERROR_EOF` makes the loop body exit the loop at once,
with only the decode call observed. -/
lemma loopBody_eof {fidDelta : Nat → Nat → Int} {FDIV : Int}
    {coords : Nat → hdmi_coordinate_t} {decode : Nat → Int}
    {pollFuel : Nat} {s : LoopState}
    (hres : decode s.di = AVERROR_EOF) :
    loopBody fidDelta FDIV coords decode pollFuel s
      = IterOut.eofExit [Event.decodeFrame s.fb (decode s.di)] := by
  simp [loopBody, hres]

/-- The bootstrap pass of the loop body, written out: decode, flush,
immediate handover, device start, and the coordinate read right after
starting recorded as `last` — no deadline events and exactly one
coordinate read. -/
lemma loopBody_first {fidDelta : Nat → Nat → Int} {FDIV : Int}
    {coords : Nat → hdmi_coordinate_t} {decode : Nat → Int}
    {pollFuel : Nat} {s : LoopState}
    (hfirst : s.first = true) (hres : decode s.di ≠ AVERROR_EOF) :
    loopBody fidDelta FDIV coords decode pollFuel s
      = IterOut.next
          ([Event.decodeFrame s.fb (decode s.di)]
            ++ (if decode s.di ≠ 0 then [Event.decodeError (decode s.di)] else [])
            ++ [Event.flush s.fb]
            ++ [Event.setFb s.fb, Event.devStart])
          ⟨(s.fb + 1) % 2, coords s.ci, false, s.ci + 1, s.di + 1⟩ := by
  simp only [loopBody, hfirst, hres, if_neg, if_false, ite_true, ite_false,
    List.append_assoc]

/-- Any continuing pass of the loop body flips the slot index and hands
exactly the pre-flip slot to the peripheral. -/
lemma loopBody_next_slots {fidDelta : Nat → Nat → Int} {FDIV : Int}
    {coords : Nat → hdmi_coordinate_t} {decode : Nat → Int}
    {pollFuel : Nat} {s : LoopState} {evs : List Event} {s1 : LoopState}
    (hnext : loopBody fidDelta FDIV coords decode pollFuel s = IterOut.next evs s1) :
    s1.fb = (s.fb + 1) % 2 ∧ Event.setFb s.fb ∈ evs
    ∧ ∀ slot, Event.setFb slot ∈ evs → slot = s.fb := by
  by_cases hres : decode s.di = AVERROR_EOF
  · rw [loopBody_eof hres] at hnext
    cases hnext
  · by_cases hfirst : s.first = true
    · rw [loopBody_first hfirst hres] at hnext
      injection hnext with he hs
      subst he
      subst hs
      refine ⟨rfl, by simp, ?_⟩
      intro slot hmem
      by_cases hz : decode s.di = 0 <;> simp [hz] at hmem <;> exact hmem
    · have hfirst2 : s.first = false := by simpa using hfirst
      obtain ⟨-, r, hiter, hevs, hs1⟩ := loopBody_next_inv hfirst2 hnext
      subst hevs
      subst hs1
      refine ⟨rfl, by simp, ?_⟩
      intro slot hmem
      by_cases hz : decode s.di = 0 <;> by_cases hwr : r.warned = true <;>
        simp [hz, hwr] at hmem <;> exact hmem

/-- The slot index after `n` completed iterations, for any start state
whose slot index is a legal one. -/
lemma runLoop_fb {fidDelta : Nat → Nat → Int} {FDIV : Int}
    {coords : Nat → hdmi_coordinate_t} {decode : Nat → Int} {pollFuel : Nat} :
    ∀ n (s0 s : LoopState), s0.fb ≤ 1 →
      (runLoop fidDelta FDIV coords decode pollFuel s0 n).2 = LoopOutcome.running s →
      s.fb = (s0.fb + n) % 2 := by
  intro n
  induction n with
  | zero =>
    intro s0 s hle h
    simp only [runLoop] at h
    cases h
    omega
  | succ n ih =>
    intro s0 s hle h
    simp only [runLoop] at h
    cases hb : loopBody fidDelta FDIV coords decode pollFuel s0 with
    | eofExit evs => rw [hb] at h; cases h
    | stuck evs => rw [hb] at h; cases h
    | next evs s1 =>
      rw [hb] at h
      dsimp only at h
      have hfb := (loopBody_next_slots hb).1
      have hs := ih s1 s (by omega) h
      omega

/-- C3: the slot index starts at 0, every completed iteration flips it
exactly once (so across a run it takes the sequence 0,1,0,1,...), the
slot handed to the peripheral in an iteration is exactly the slot that
was just decoded into, and the successor iteration decodes into the
other slot — the two roles never hold the same slot. -/
theorem slot_alternation (fidDelta : Nat → Nat → Int) (FDIV : Int)
    (coords : Nat → hdmi_coordinate_t) (decode : Nat → Int) (pollFuel : Nat) :
    initState.fb = 0
    ∧ (∀ s evs s1, loopBody fidDelta FDIV coords decode pollFuel s = IterOut.next evs s1 →
        s1.fb = (s.fb + 1) % 2 ∧ Event.setFb s.fb ∈ evs
          ∧ (∀ slot, Event.setFb slot ∈ evs → slot = s.fb)
          ∧ (s.fb ≤ 1 → s1.fb ≠ s.fb))
    ∧ (∀ n s, (runLoop fidDelta FDIV coords decode pollFuel initState n).2
          = LoopOutcome.running s → s.fb = n % 2) := by
  refine ⟨rfl, ?_, ?_⟩
  · intro s evs s1 hnext
    obtain ⟨h1, h2, h3⟩ := loopBody_next_slots hnext
    exact ⟨h1, h2, h3, fun hle => by omega⟩
  · intro n s h
    have := runLoop_fb n initState s (by decide) h
    simpa [initState] using this

/-- C4: with the first frame decoded successfully, the bootstrap
iteration presents slot 0 with zero deadline checks and zero blocking
waits: the trace is exactly decode, flush, `set_fb` of slot 0, start —
no warning event and no wait — only one coordinate is read (the one
right after starting), and it is recorded as `last_presented_coordinate`
of the successor state. -/
theorem bootstrap_first_frame (fidDelta : Nat → Nat → Int) (FDIV : Int)
    (coords : Nat → hdmi_coordinate_t) (decode : Nat → Int) (pollFuel : Nat)
    (hres : decode 0 = 0) :
    loopBody fidDelta FDIV coords decode pollFuel initState
      = IterOut.next
          [Event.decodeFrame 0 0, Event.flush 0, Event.setFb 0, Event.devStart]
          ⟨1, coords 0, false, 1, 1⟩ := by
  have hne : decode initState.di ≠ AVERROR_EOF := by
    show decode 0 ≠ AVERROR_EOF
    rw [hres]
    decide
  rw [loopBody_first rfl hne]
  simp [hres, initState]

/-- C5: when the very first decode call returns end-of-stream, the loop
exits at once with zero frames presented — the trace holds no `set_fb`
and no start — and the program falls through to teardown, exiting with
status 0. -/
theorem eof_on_first_decode (fidDelta : Nat → Nat → Int) (FDIV : Int)
    (coords : Nat → hdmi_coordinate_t) (decode : Nat → Int)
    (pollFuel iters : Nat) (env : SetupEnv)
    (hres : decode 0 = AVERROR_EOF) (hiters : 1 ≤ iters)
    (hsetup : main_setup env = SetupResult.proceed FDIV) :
    runLoop fidDelta FDIV coords decode pollFuel initState iters
      = ([Event.decodeFrame 0 AVERROR_EOF], LoopOutcome.eofExit)
    ∧ (∀ slot, Event.setFb slot ∉
        (runLoop fidDelta FDIV coords decode pollFuel initState iters).1)
    ∧ Event.devStart ∉ (runLoop fidDelta FDIV coords decode pollFuel initState iters).1
    ∧ program_status env fidDelta coords decode pollFuel iters = some 0 := by
  obtain ⟨k, rfl⟩ : ∃ k, iters = k + 1 := ⟨iters - 1, by omega⟩
  have hdi : decode initState.di = AVERROR_EOF := hres
  have hrun : runLoop fidDelta FDIV coords decode pollFuel initState (k + 1)
      = ([Event.decodeFrame 0 AVERROR_EOF], LoopOutcome.eofExit) := by
    simp only [runLoop]
    rw [loopBody_eof hdi]
    simp [hres, initState]
  refine ⟨hrun, ?_, ?_, ?_⟩
  · intro slot
    rw [hrun]
    simp
  · rw [hrun]
    simp
  · simp [program_status, hsetup, hrun]

/-- C6: an `AVERROR_EOF` decode return exits the loop as the terminal
state, while any other nonzero return code is logged and the iteration
continues, presenting the same buffer as-is in that same iteration (its
`set_fb` is in the same pass's trace) with the decode cursor advancing
by exactly one — no frame is skipped or retried. -/
theorem decode_error_policy (fidDelta : Nat → Nat → Int) (FDIV : Int)
    (coords : Nat → hdmi_coordinate_t) (decode : Nat → Int) (pollFuel : Nat)
    (s : LoopState) :
    (decode s.di = AVERROR_EOF →
      loopBody fidDelta FDIV coords decode pollFuel s
        = IterOut.eofExit [Event.decodeFrame s.fb (decode s.di)])
    ∧ (∀ evs s1, decode s.di ≠ 0 → decode s.di ≠ AVERROR_EOF →
        loopBody fidDelta FDIV coords decode pollFuel s = IterOut.next evs s1 →
        Event.decodeError (decode s.di) ∈ evs ∧ Event.setFb s.fb ∈ evs
          ∧ s1.di = s.di + 1) := by
  constructor
  · intro hres
    exact loopBody_eof hres
  · intro evs s1 hz hres hnext
    by_cases hfirst : s.first = true
    · rw [loopBody_first hfirst hres] at hnext
      injection hnext with he hs
      subst he
      subst hs
      exact ⟨by simp [hz], by simp, rfl⟩
    · have hfirst2 : s.first = false := by simpa using hfirst
      obtain ⟨-, r, hiter, hevs, hs1⟩ := loopBody_next_inv hfirst2 hnext
      subst hevs
      subst hs1
      exact ⟨by simp [hz], by simp, rfl⟩

/-- C7: for any signal it handles, the shutdown handler issues exactly
one peripheral stop command and then terminates the process (it touches
nothing else — its model has no buffer or decoder operations): `SIGINT`
gets the acknowledged `hdmi_dev_stop`, every other handled signal the
immediate `hdmi_dev_stopnow`. -/
theorem shutdown_handler_stop_commands (signum : Int) :
    (signal_handler signum).1.length = 1
    ∧ (signum = SIGINT → (signal_handler signum).1 = [StopCmd.stop])
    ∧ (signum ≠ SIGINT → (signal_handler signum).1 = [StopCmd.stopnow]) := by
  by_cases h : signum = SIGINT <;> simp [signal_handler, h]


/-- A wrong argument count (anything but exactly two positional
arguments) always lands in the usage path with status 1. -/
lemma main_setup_wrong_args {env : SetupEnv} (h : env.args.length ≠ 2) :
    main_setup env = SetupResult.exitWith 1 := by
  unfold main_setup
  by_cases hA : env.args.length + 1 = 2 ∧ env.args.getD 0 "" = "help"
  · rw [if_pos hA]
  · rw [if_neg hA]
    by_cases hB : env.args.length + 1 = 2 ∧ env.args.getD 0 "" = "--help"
    · rw [if_pos hB]
    · rw [if_neg hB, if_pos (by omega : env.args.length + 1 ≠ 3)]

/-- With every usage check passed (two arguments, root, positive parsed
divider, video opened), `main_setup` reduces to the resource-setup
cascade of src/main.c lines 75-106. -/
lemma main_setup_past_usage (env : SetupEnv) (h2 : env.args.length = 2)
    (hu : env.euid = 0) (ha : 0 < env.atoi (env.args.getD 1 ""))
    (hv : env.videoOk = true) :
    main_setup env =
      (if !env.allocOk then SetupResult.exitWith 127
       else if !env.fb0Ok then SetupResult.exitWith 127
       else if !env.fb1Ok then SetupResult.exitWith 127
       else if env.sigintRes ≠ 0 ∨ env.sigtermRes ≠ 0 then SetupResult.exitWith 127
       else if !env.devOk then SetupResult.exitWith 127
       else SetupResult.proceed (env.atoi (env.args.getD 1 ""))) := by
  unfold main_setup
  rw [if_neg (fun hA => absurd hA.1 (by omega)),
    if_neg (fun hB => absurd hB.1 (by omega)),
    if_neg (by omega : ¬(env.args.length + 1 ≠ 3)),
    if_neg (by omega : ¬(env.euid ≠ 0))]
  rw [if_neg (by omega : ¬(env.atoi (env.args.getD 1 "") ≤ 0)),
    if_neg (by simp [hv])]

/-- C8: exit-status mapping of the CLI wrapper: a lone `help`/`--help`
argument, a wrong argument count, or a non-root uid yields usage and
status 1; with the usage checks passed, a failed allocator open, failed
framebuffer allocation (either slot), failed signal registration, or a
failed peripheral open yields status 127; and when setup proceeds and
playback ends in end-of-stream, the program exits 0 after teardown. -/
theorem cli_exit_status_mapping (env : SetupEnv) (fidDelta : Nat → Nat → Int)
    (coords : Nat → hdmi_coordinate_t) (decode : Nat → Int)
    (pollFuel iters : Nat) :
    (env.args = ["help"] → main_setup env = SetupResult.exitWith 1)
    ∧ (env.args = ["--help"] → main_setup env = SetupResult.exitWith 1)
    ∧ (env.args.length ≠ 2 → main_setup env = SetupResult.exitWith 1)
    ∧ (env.euid ≠ 0 → main_setup env = SetupResult.exitWith 1)
    ∧ (env.args.length = 2 → env.euid = 0 → 0 < env.atoi (env.args.getD 1 "") →
        env.videoOk = true →
        (env.allocOk = false → main_setup env = SetupResult.exitWith 127)
        ∧ (env.allocOk = true → env.fb0Ok = false →
            main_setup env = SetupResult.exitWith 127)
        ∧ (env.allocOk = true → env.fb0Ok = true → env.fb1Ok = false →
            main_setup env = SetupResult.exitWith 127)
        ∧ (env.allocOk = true → env.fb0Ok = true → env.fb1Ok = true →
            (env.sigintRes ≠ 0 ∨ env.sigtermRes ≠ 0) →
            main_setup env = SetupResult.exitWith 127)
        ∧ (env.allocOk = true → env.fb0Ok = true → env.fb1Ok = true →
            env.sigintRes = 0 → env.sigtermRes = 0 → env.devOk = false →
            main_setup env = SetupResult.exitWith 127))
    ∧ (∀ F, main_setup env = SetupResult.proceed F →
        (runLoop fidDelta F coords decode pollFuel initState iters).2
          = LoopOutcome.eofExit →
        program_status env fidDelta coords decode pollFuel iters = some 0) := by
  refine ⟨?_, ?_, ?_, ?_, ?_, ?_⟩
  · intro h
    exact main_setup_wrong_args (by simp [h])
  · intro h
    exact main_setup_wrong_args (by simp [h])
  · exact main_setup_wrong_args
  · intro h
    by_cases hlen : env.args.length = 2
    · unfold main_setup
      rw [if_neg (fun hA => absurd hA.1 (by omega)),
        if_neg (fun hB => absurd hB.1 (by omega)),
        if_neg (by omega : ¬(env.args.length + 1 ≠ 3)),
        if_pos h]
    · exact main_setup_wrong_args hlen
  · intro h2 hu ha hv
    refine ⟨?_, ?_, ?_, ?_, ?_⟩
    · intro h5
      rw [main_setup_past_usage env h2 hu ha hv, if_pos (by simp [h5])]
    · intro h5 h6
      rw [main_setup_past_usage env h2 hu ha hv, if_neg (by simp [h5]),
        if_pos (by simp [h6])]
    · intro h5 h6 h7
      rw [main_setup_past_usage env h2 hu ha hv, if_neg (by simp [h5]),
        if_neg (by simp [h6]), if_pos (by simp [h7])]
    · intro h5 h6 h7 h8
      rw [main_setup_past_usage env h2 hu ha hv, if_neg (by simp [h5]),
        if_neg (by simp [h6]), if_neg (by simp [h7]), if_pos h8]
    · intro h5 h6 h7 h8 h9 h10
      rw [main_setup_past_usage env h2 hu ha hv, if_neg (by simp [h5]),
        if_neg (by simp [h6]), if_neg (by simp [h7]),
        if_neg (by omega : ¬(env.sigintRes ≠ 0 ∨ env.sigtermRes ≠ 0)),
        if_pos (by simp [h10])]
  · intro F hproc hloop
    simp [program_status, hproc, hloop]

set_option maxHeartbeats 1600000 in
/-- C9: whenever the signal handler runs it terminates the process with
status 2 (via `_exit`, so atexit hooks are bypassed), a status no
normal path uses — setup failures exit 1 or 127 and a completed
playback exits 0; and a failure to open the video file is an exit with
status 1 after usage, not 127. -/
theorem handler_status_distinct (env : SetupEnv) (signum : Int) :
    (signal_handler signum).2 = 2
    ∧ (∀ c, main_setup env = SetupResult.exitWith c → c = 1 ∨ c = 127)
    ∧ (∀ c, main_setup env = SetupResult.exitWith c →
        (c : Int) ≠ (signal_handler signum).2)
    ∧ (0 : Int) ≠ (signal_handler signum).2
    ∧ (env.args.length = 2 → env.euid = 0 → 0 < env.atoi (env.args.getD 1 "") →
        env.videoOk = false → main_setup env = SetupResult.exitWith 1) := by
  have hstat : ∀ c, main_setup env = SetupResult.exitWith c → c = 1 ∨ c = 127 := by
    intro c h
    simp only [main_setup] at h
    split_ifs at h <;> (injection h with h; omega)
  refine ⟨rfl, hstat, ?_, by simp [signal_handler], ?_⟩
  · intro c h
    rcases hstat c h with rfl | rfl <;> simp [signal_handler]
  · intro h2 hu ha hv
    unfold main_setup
    rw [if_neg (fun hA => absurd hA.1 (by omega)),
      if_neg (fun hB => absurd hB.1 (by omega)),
      if_neg (by omega : ¬(env.args.length + 1 ≠ 3)),
      if_neg (by omega : ¬(env.euid ≠ 0)),
      if_neg (by omega : ¬(env.atoi (env.args.getD 1 "") ≤ 0)),
      if_pos (by simp [hv])]

/-! ### Concrete fixtures for witnesses -/

/-- A coordinate stream advancing one hardware frame per sample. -/
def testCoords : Nat → hdmi_coordinate_t := fun k => ⟨10 + k, 100⟩

/-- The wraparound-aware delta instantiated at modulus 1000. -/
def testDelta : Nat → Nat → Int := hdmi_fid_delta 1000

/-- A decoder that always succeeds. -/
def testDecodeOk : Nat → Int := fun _ => 0

/-- A decoder that reports end-of-stream at once. -/
def testDecodeEof : Nat → Int := fun _ => AVERROR_EOF

/-- A decoder that always fails with a recoverable error code. -/
def testDecodeErr : Nat → Int := fun _ => -5

/-- A mid-playback loop state: slot 1, last presented at frame id 10,
bootstrap done, one frame already decoded. -/
def testLoopState : LoopState := ⟨1, ⟨10, 0⟩, false, 0, 1⟩

/-- A setup environment in which every check passes. -/
def testEnv : SetupEnv :=
  ⟨["vid.mp4", "3"], 0, fun _ => 3, true, true, true, true, 0, 0, true⟩

/-- An invocation with the single argument `help`. -/
def testEnvHelp : SetupEnv :=
  ⟨["help"], 0, fun _ => 3, true, true, true, true, 0, 0, true⟩

/-- A setup environment in which only opening the video fails. -/
def testEnvVideoBad : SetupEnv :=
  ⟨["vid.mp4", "3"], 0, fun _ => 3, false, true, true, true, 0, 0, true⟩

/-! ### Witnesses -/

/-- Witness for the C1 theorem at a concrete steady-state iteration. -/
theorem steady_state_wait_windows_witness :
    testLoopState.first = false
    ∧ steadyIter testDelta 3 testLoopState.last testCoords testLoopState.ci 10
        = some ⟨false, 2, 3⟩
    ∧ (3 : Int) ≤ testDelta (testCoords 3).fid testLoopState.last.fid :=
  ⟨rfl, by decide,
    (steady_state_wait_windows testDelta 3 testCoords testDecodeOk 10
      testLoopState ⟨false, 2, 3⟩ rfl (by decide)).2.2.2.2.1⟩

/-- Witness for the C10 theorem at a concrete steady-state iteration. -/
theorem presented_frames_fdiv_apart_witness :
    testLoopState.first = false
    ∧ loopBody testDelta 3 testCoords testDecodeOk 10 testLoopState
        = IterOut.next [Event.decodeFrame 1 0, Event.flush 1, Event.setFb 1]
            ⟨0, ⟨13, 100⟩, false, 4, 2⟩
    ∧ (3 : Int) ≤ testDelta (13 : Nat) testLoopState.last.fid :=
  ⟨rfl, by decide,
    presented_frames_fdiv_apart testDelta 3 testCoords testDecodeOk 10
      testLoopState [Event.decodeFrame 1 0, Event.flush 1, Event.setFb 1]
      ⟨0, ⟨13, 100⟩, false, 4, 2⟩ rfl (by decide)⟩

/-- Witness for the C2 theorem at a concrete steady-state iteration
(one in which the deadline is met, so no warning is emitted). -/
theorem missed_deadline_diagnostic_witness :
    testLoopState.first = false
    ∧ loopBody testDelta 3 testCoords testDecodeOk 10 testLoopState
        = IterOut.next [Event.decodeFrame 1 0, Event.flush 1, Event.setFb 1]
            ⟨0, ⟨13, 100⟩, false, 4, 2⟩
    ∧ ((Event.warnMissedDeadline
          ∈ [Event.decodeFrame 1 0, Event.flush 1, Event.setFb 1] ↔
        ((3 : Int) ≤ testDelta (testCoords testLoopState.ci).fid testLoopState.last.fid
          ∨ (testDelta (testCoords testLoopState.ci).fid testLoopState.last.fid = 3 - 1
            ∧ 524 ≤ (testCoords testLoopState.ci).row)))
      ∧ Option.map (fun r => (r.setFbIdx, r.presentIdx))
          (steadyIter testDelta 3 testLoopState.last testCoords testLoopState.ci 10)
        = steadySchedule testDelta 3 testLoopState.last testCoords testLoopState.ci 10) :=
  ⟨rfl, by decide,
    missed_deadline_diagnostic testDelta 3 testCoords testDecodeOk 10
      testLoopState [Event.decodeFrame 1 0, Event.flush 1, Event.setFb 1]
      ⟨0, ⟨13, 100⟩, false, 4, 2⟩ rfl (by decide)⟩

/-- Witness for the C3 theorem after three concrete iterations. -/
theorem slot_alternation_witness :
    (runLoop testDelta 3 testCoords testDecodeOk 10 initState 3).2
      = LoopOutcome.running ⟨1, ⟨16, 100⟩, false, 7, 3⟩
    ∧ (⟨1, ⟨16, 100⟩, false, 7, 3⟩ : LoopState).fb = 3 % 2 :=
  ⟨by decide,
    (slot_alternation testDelta 3 testCoords testDecodeOk 10).2.2 3
      ⟨1, ⟨16, 100⟩, false, 7, 3⟩ (by decide)⟩

/-- Witness for the C4 theorem with a successful first decode. -/
theorem bootstrap_first_frame_witness :
    testDecodeOk 0 = 0
    ∧ loopBody testDelta 3 testCoords testDecodeOk 10 initState
        = IterOut.next
            [Event.decodeFrame 0 0, Event.flush 0, Event.setFb 0, Event.devStart]
            ⟨1, testCoords 0, false, 1, 1⟩ :=
  ⟨rfl, bootstrap_first_frame testDelta 3 testCoords testDecodeOk 10 rfl⟩

/-- Witness for the C5 theorem with an immediate end-of-stream. -/
theorem eof_on_first_decode_witness :
    testDecodeEof 0 = AVERROR_EOF ∧ (1 : Nat) ≤ 1
    ∧ main_setup testEnv = SetupResult.proceed 3
    ∧ (runLoop testDelta 3 testCoords testDecodeEof 10 initState 1
        = ([Event.decodeFrame 0 AVERROR_EOF], LoopOutcome.eofExit)
      ∧ (∀ slot, Event.setFb slot ∉
          (runLoop testDelta 3 testCoords testDecodeEof 10 initState 1).1)
      ∧ Event.devStart ∉ (runLoop testDelta 3 testCoords testDecodeEof 10 initState 1).1
      ∧ program_status testEnv testDelta testCoords testDecodeEof 10 1 = some 0) :=
  ⟨rfl, by decide, by decide,
    eof_on_first_decode testDelta 3 testCoords testDecodeEof 10 1 testEnv
      rfl (by decide) (by decide)⟩

/-- Witness for the C6 theorem with a recoverable decode error. -/
theorem decode_error_policy_witness :
    testDecodeErr testLoopState.di ≠ 0
    ∧ testDecodeErr testLoopState.di ≠ AVERROR_EOF
    ∧ loopBody testDelta 3 testCoords testDecodeErr 10 testLoopState
        = IterOut.next
            [Event.decodeFrame 1 (-5), Event.decodeError (-5), Event.flush 1,
              Event.setFb 1]
            ⟨0, ⟨13, 100⟩, false, 4, 2⟩
    ∧ (Event.decodeError (testDecodeErr testLoopState.di)
          ∈ [Event.decodeFrame 1 (-5), Event.decodeError (-5), Event.flush 1,
              Event.setFb 1]
      ∧ Event.setFb testLoopState.fb
          ∈ [Event.decodeFrame 1 (-5), Event.decodeError (-5), Event.flush 1,
              Event.setFb 1]
      ∧ (⟨0, ⟨13, 100⟩, false, 4, 2⟩ : LoopState).di = testLoopState.di + 1) :=
  ⟨by decide, by decide, by decide,
    (decode_error_policy testDelta 3 testCoords testDecodeErr 10 testLoopState).2
      [Event.decodeFrame 1 (-5), Event.decodeError (-5), Event.flush 1,
        Event.setFb 1]
      ⟨0, ⟨13, 100⟩, false, 4, 2⟩ (by decide) (by decide) (by decide)⟩

/-- Witness for the C7 theorem at `SIGTERM`, the forceful path. -/
theorem shutdown_handler_stop_commands_witness :
    SIGTERM ≠ SIGINT ∧ (signal_handler SIGTERM).1 = [StopCmd.stopnow] :=
  ⟨by decide, (shutdown_handler_stop_commands SIGTERM).2.2 (by decide)⟩

/-- Witness for the C8 theorem on a `help` invocation. -/
theorem cli_exit_status_mapping_witness :
    testEnvHelp.args = ["help"]
    ∧ main_setup testEnvHelp = SetupResult.exitWith 1 :=
  ⟨rfl,
    (cli_exit_status_mapping testEnvHelp testDelta testCoords testDecodeOk 10 1).1
      rfl⟩

/-- Witness for the C9 theorem on a failed video open. -/
theorem handler_status_distinct_witness :
    (signal_handler SIGTERM).2 = 2
    ∧ testEnvVideoBad.args.length = 2
    ∧ testEnvVideoBad.euid = 0
    ∧ 0 < testEnvVideoBad.atoi (testEnvVideoBad.args.getD 1 "")
    ∧ testEnvVideoBad.videoOk = false
    ∧ main_setup testEnvVideoBad = SetupResult.exitWith 1 :=
  ⟨rfl, rfl, rfl, by decide, rfl,
    (handler_status_distinct testEnvVideoBad SIGTERM).2.2.2.2 rfl rfl (by decide)
      rfl⟩
